import Mathlib

/-!
Shallow embedding of the ai_chat query pipeline
(src/rag.js, src/services/responseService.js, src/services/classificationService.js,
src/services/documentService.js).

The live entry point is `askQuestion` in rag.js: it retrieves context through the
document service, classifies through the classification service, and dispatches
through the response service.  The external effects (vector store, language model)
are modelled by a `ModelWorld` oracle whose fields return either a reply string or
a thrown error message (`Except String String`).  JavaScript strings are Lean
`String`s, parsed JSON values are `JsValue`, JSON numbers are rationals.
-/

namespace AiChat

/-- Whitespace class of JavaScript: the characters matched by the regex class `\s`
and stripped by `String.trim` (WhiteSpace plus LineTerminator). -/
def isJsSpace (c : Char) : Bool :=
  c.toNat = 0x09 || c.toNat = 0x0a || c.toNat = 0x0b || c.toNat = 0x0c ||
  c.toNat = 0x0d || c.toNat = 0x20 || c.toNat = 0xa0 || c.toNat = 0x1680 ||
  (0x2000 ≤ c.toNat && c.toNat ≤ 0x200a) || c.toNat = 0x2028 || c.toNat = 0x2029 ||
  c.toNat = 0x202f || c.toNat = 0x205f || c.toNat = 0x3000 || c.toNat = 0xfeff

/-- JavaScript `String.prototype.trim`. -/
def jsTrim (s : String) : String :=
  ⟨((s.data.dropWhile isJsSpace).reverse.dropWhile isJsSpace).reverse⟩

/-- JavaScript `String.prototype.toUpperCase` (on the ASCII letters the code compares). -/
def jsToUpper (s : String) : String := ⟨s.data.map Char.toUpper⟩

/-- A parsed JSON value, the result of JavaScript `JSON.parse`. -/
inductive JsValue where
  | vnull
  | vbool (b : Bool)
  | vnum (q : ℚ)
  | vstr (s : String)
  | varr (xs : List JsValue)
  | vobj (fields : List (String × JsValue))

/-- Property lookup on a JSON object: JavaScript keeps the LAST of duplicate keys
produced by `JSON.parse`; lookup on a non-object yields `undefined` (`none`). -/
def lookupLast : List (String × JsValue) → String → Option JsValue
  | [], _ => none
  | (k, v) :: rest, key =>
    match lookupLast rest key with
    | some w => some w
    | none => if k = key then some v else none

/-- JavaScript member access `v.key` on a parsed JSON value. -/
def getField : JsValue → String → Option JsValue
  | .vobj fields, key => lookupLast fields key
  | _, _ => none

/-- JavaScript truthiness of a parsed JSON value (no `NaN`/`undefined` arises from
`JSON.parse`). -/
def truthy : JsValue → Bool
  | .vnull => false
  | .vbool b => b
  | .vnum q => !(q = 0 : Bool)
  | .vstr s => !(s = "" : Bool)
  | .varr _ => true
  | .vobj _ => true

/-- Truthiness of a possibly-`undefined` member access. -/
def truthyOpt : Option JsValue → Bool
  | none => false
  | some v => truthy v

/-! JSON parser, the semantics of `JSON.parse` on the fragments the pipeline feeds it. -/

/-- JSON insignificant whitespace (space, tab, line feed, carriage return). -/
def skipWs : List Char → List Char
  | c :: cs => if c = ' ' || c = '\t' || c = '\n' || c = '\r' then skipWs cs else c :: cs
  | [] => []

def isDigitChar (c : Char) : Bool := 48 ≤ c.toNat && c.toNat ≤ 57

def digitsToNat (ds : List Char) : Nat := List.foldl (fun n c => 10 * n + (c.toNat - 48)) 0 ds

def hexVal (c : Char) : Option Nat :=
  if 48 ≤ c.toNat && c.toNat ≤ 57 then some (c.toNat - 48)
  else if 97 ≤ c.toNat && c.toNat ≤ 102 then some (c.toNat - 87)
  else if 65 ≤ c.toNat && c.toNat ≤ 70 then some (c.toNat - 55)
  else none

/-- Match a literal character sequence, returning the remainder. -/
def dropLit : List Char → List Char → Option (List Char)
  | [], cs => some cs
  | l :: ls, c :: cs => if c = l then dropLit ls cs else none
  | _ :: _, [] => none

/-- Body of a JSON string after the opening quote; `acc` holds decoded characters
in reverse.  The fuel is at least the input length, so it is never exhausted. -/
def parseStringBody : Nat → List Char → List Char → Option (String × List Char)
  | 0, _, _ => none
  | _ + 1, [], _ => none
  | f + 1, c :: rest, acc =>
    if c = '"' then some (⟨acc.reverse⟩, rest)
    else if c = '\\' then
      match rest with
      | [] => none
      | e :: rest2 =>
        if e = '"' then parseStringBody f rest2 ('"' :: acc)
        else if e = '\\' then parseStringBody f rest2 ('\\' :: acc)
        else if e = '/' then parseStringBody f rest2 ('/' :: acc)
        else if e = 'b' then parseStringBody f rest2 (Char.ofNat 8 :: acc)
        else if e = 'f' then parseStringBody f rest2 (Char.ofNat 12 :: acc)
        else if e = 'n' then parseStringBody f rest2 ('\n' :: acc)
        else if e = 'r' then parseStringBody f rest2 ('\r' :: acc)
        else if e = 't' then parseStringBody f rest2 ('\t' :: acc)
        else if e = 'u' then
          match rest2 with
          | a :: b :: c2 :: d :: rest3 =>
            match hexVal a, hexVal b, hexVal c2, hexVal d with
            | some ha, some hb, some hc, some hd =>
              parseStringBody f rest3 (Char.ofNat (4096 * ha + 256 * hb + 16 * hc + hd) :: acc)
            | _, _, _, _ => none
          | _ => none
        else none
    else if c.toNat < 32 then none
    else parseStringBody f rest (c :: acc)

/-- Fractional part of a JSON number (empty if no dot). -/
def parseFrac : List Char → Option (ℚ × List Char)
  | '.' :: rest =>
    let fds := rest.takeWhile isDigitChar
    if fds.isEmpty then none
    else some ((digitsToNat fds : ℚ) / ((10 : ℚ) ^ fds.length), rest.dropWhile isDigitChar)
  | cs => some (0, cs)

/-- Exponent part of a JSON number, as a scale factor applied multiplicatively. -/
def applyExp (q : ℚ) : List Char → Option (ℚ × List Char)
  | c :: rest =>
    if c = 'e' || c = 'E' then
      let (eneg, rest2) :=
        match rest with
        | d :: rr => if d = '-' then (true, rr) else if d = '+' then (false, rr) else (false, rest)
        | [] => (false, rest)
      let eds := rest2.takeWhile isDigitChar
      if eds.isEmpty then none
      else
        let e := digitsToNat eds
        some (if eneg then q / (10 : ℚ) ^ e else q * (10 : ℚ) ^ e, rest2.dropWhile isDigitChar)
    else some (q, c :: rest)
  | [] => some (q, [])

/-- A JSON number: optional minus, integer part without leading zeros, optional
fraction, optional exponent. -/
def parseNumberBody (cs : List Char) : Option (ℚ × List Char) :=
  let (neg, cs1) :=
    match cs with
    | c :: rest => if c = '-' then (true, rest) else (false, cs)
    | [] => (false, cs)
  match cs1 with
  | [] => none
  | c :: _ =>
    if !isDigitChar c then none
    else
      let intDigits := cs1.takeWhile isDigitChar
      let cs2 := cs1.dropWhile isDigitChar
      if intDigits.length > 1 && intDigits.headD '0' = '0' then none
      else
        match parseFrac cs2 with
        | none => none
        | some (frac, cs3) =>
          match applyExp ((digitsToNat intDigits : ℚ) + frac) cs3 with
          | none => none
          | some (q, cs4) => some ((if neg then -q else q), cs4)

def lbrace : Char := Char.ofNat 123
def rbrace : Char := Char.ofNat 125

mutual

/-- One JSON value (with leading whitespace).  The fuel bounds the number of nested
parser calls; the top-level entry supplies more fuel than any input can consume. -/
def parseValue : Nat → List Char → Option (JsValue × List Char)
  | 0, _ => none
  | f + 1, cs =>
    match skipWs cs with
    | [] => none
    | c :: rest =>
      if c = '"' then
        match parseStringBody (rest.length + 1) rest [] with
        | some (s, r) => some (.vstr s, r)
        | none => none
      else if c = lbrace then
        match skipWs rest with
        | d :: r2 =>
          if d = rbrace then some (.vobj [], r2)
          else
            match parseMembers f (skipWs rest) with
            | some (ms, r3) => some (.vobj ms, r3)
            | none => none
        | [] => none
      else if c = '[' then
        match skipWs rest with
        | d :: r2 =>
          if d = ']' then some (.varr [], r2)
          else
            match parseElements f (skipWs rest) with
            | some (es, r3) => some (.varr es, r3)
            | none => none
        | [] => none
      else if c = 't' then
        match dropLit ['r', 'u', 'e'] rest with
        | some r => some (.vbool true, r)
        | none => none
      else if c = 'f' then
        match dropLit ['a', 'l', 's', 'e'] rest with
        | some r => some (.vbool false, r)
        | none => none
      else if c = 'n' then
        match dropLit ['u', 'l', 'l'] rest with
        | some r => some (.vnull, r)
        | none => none
      else if c = '-' || isDigitChar c then
        match parseNumberBody (c :: rest) with
        | some (q, r) => some (.vnum q, r)
        | none => none
      else none

/-- Comma-separated array elements up to the closing bracket. -/
def parseElements : Nat → List Char → Option (List JsValue × List Char)
  | 0, _ => none
  | f + 1, cs =>
    match parseValue f cs with
    | none => none
    | some (v, r) =>
      match skipWs r with
      | ',' :: r2 =>
        match parseElements f r2 with
        | some (vs, r3) => some (v :: vs, r3)
        | none => none
      | ']' :: r2 => some ([v], r2)
      | _ => none

/-- Comma-separated object members up to the closing brace. -/
def parseMembers : Nat → List Char → Option (List (String × JsValue) × List Char)
  | 0, _ => none
  | f + 1, cs =>
    match skipWs cs with
    | '"' :: rest =>
      match parseStringBody (rest.length + 1) rest [] with
      | none => none
      | some (k, r) =>
        match skipWs r with
        | ':' :: r2 =>
          match parseValue f r2 with
          | none => none
          | some (v, r3) =>
            match skipWs r3 with
            | ',' :: r4 =>
              match parseMembers f r4 with
              | some (ms, r5) => some ((k, v) :: ms, r5)
              | none => none
            | d :: r4 => if d = rbrace then some ([(k, v)], r4) else none
            | [] => none
        | _ => none
    | _ => none

end

/-- JavaScript `JSON.parse`: one value, then only trailing whitespace. -/
def jsonParse (s : String) : Option JsValue :=
  match parseValue (3 * s.length + 3) s.data with
  | some (v, r) => if skipWs r = [] then some v else none
  | none => none

/-! Cleanup pipeline of the "second attempt" repair parse in
`handleTechnicalWithDocs` (responseService.js lines 25-30, rag.js lines 177-182). -/

def backtick : Char := Char.ofNat 96

/-- The literal fence opener matched by the first regex alternative. -/
def fenceJson : List Char := [backtick, backtick, backtick, 'j', 's', 'o', 'n']

/-- The bare fence matched by the second regex alternative. -/
def fenceBare : List Char := [backtick, backtick, backtick]

/-- Global replace of the regex alternation (fence-opener followed by greedy
whitespace | greedy whitespace followed by bare fence) with the empty string:
left-to-right scan, first alternative preferred at each position.  The fuel is
the input length; every step consumes at least one character, so it never runs
out on a nonempty remainder. -/
def stripFencesAux : Nat → List Char → List Char
  | 0, cs => cs
  | f + 1, cs =>
    match cs with
    | [] => []
    | c :: rest =>
      match dropLit fenceJson cs with
      | some r1 => stripFencesAux f (r1.dropWhile isJsSpace)
      | none =>
        match dropLit fenceBare (cs.dropWhile isJsSpace) with
        | some r3 => stripFencesAux f r3
        | none => c :: stripFencesAux f rest

/-- `.replace(markdown-fence regex, empty)` — remove markdown code fences. -/
def stripFences (cs : List Char) : List Char := stripFencesAux (cs.length + 1) cs

/-- `.replace(left/right typographic double quote, plain quote)`. -/
def replaceSmartQuotes (cs : List Char) : List Char :=
  cs.map (fun c => if c.toNat = 0x201c || c.toNat = 0x201d then '"' else c)

/-- `.replace(carriage-return-or-line-feed class, empty)` — remove newlines. -/
def removeNewlines (cs : List Char) : List Char :=
  cs.filter (fun c => !(c = '\r' || c = '\n'))

/-- Scanner for collapsing each maximal whitespace run to a single space;
`inWs` records whether the previous character was part of a run. -/
def collapseWsGo : List Char → Bool → List Char
  | [], _ => []
  | c :: rest, inWs =>
    if isJsSpace c then
      if inWs then collapseWsGo rest true else ' ' :: collapseWsGo rest true
    else c :: collapseWsGo rest false

/-- `.replace(one-or-more whitespace, single space)` — normalize spaces. -/
def collapseWs (cs : List Char) : List Char := collapseWsGo cs false

/-- The cleaned text of the repair parse: remove markdown fences, replace smart
quotes, remove newlines, normalize spaces, trim — in the source's order. -/
def cleanContent (s : String) : String :=
  jsTrim ⟨collapseWs (removeNewlines (replaceSmartQuotes (stripFences s.data)))⟩

/-- The two-tier parse of the synthesizer: direct `JSON.parse`, then on failure
`JSON.parse` of the cleaned text (responseService.js lines 18-36). -/
def parseModelContent (content : String) : Option JsValue :=
  match jsonParse content with
  | some v => some v
  | none => jsonParse (cleanContent content)

/-! The response records (the tagged payload shapes of the four responders, the
ERROR shape of `askQuestion`, and the `type` discriminator). -/

/-- The `contactInfo` record of the TECHNICAL_NO_DOCS responder. -/
structure SupportContact where
  email : String
  phone : String
  supportHours : String

/-- The `contactInfo` record of the BILLING responder. -/
structure BillingContact where
  email : String
  phone : String
  hours : String

/-- Fields of the TECHNICAL_WITH_DOCS record beside the `type` tag. -/
structure TechDocsPayload where
  priority : String
  responseTime : String
  answer : JsValue
  confidence : ℚ
  sourcesUsed : ℚ
  relevantDocs : List JsValue

/-- The tagged union of records the pipeline can return, one constructor per
`type` tag. -/
inductive Response where
  | technicalWithDocs (p : TechDocsPayload)
  | technicalNoDocs (message : String) (contactInfo : SupportContact) (ticketPriority : String)
  | billing (message : String) (contactInfo : BillingContact) (securityNote : String)
  | irrelevant (message : String) (suggestion : String) (availableCategories : List String)
  | errorResponse (message : String) (error : String)

/-- The `type` field of a response record. -/
def Response.type : Response → String
  | .technicalWithDocs _ => "TECHNICAL_WITH_DOCS"
  | .technicalNoDocs _ _ _ => "TECHNICAL_NO_DOCS"
  | .billing _ _ _ => "BILLING"
  | .irrelevant _ _ _ => "IRRELEVANT"
  | .errorResponse _ _ => "ERROR"

/-! External effects: the vector store and the language model, modelled as an
oracle giving, per stage, either the reply string or a thrown error message. -/

/-- The external world of one invocation: `getRelevantDocuments` is the document
service (retrieval), the other three fields are the model's raw reply in the
relevance check, the classification chain, and the synthesizer's `model.invoke`. -/
structure ModelWorld where
  getRelevantDocuments : String → Except String String
  relevanceReply : String → String → Except String String
  classificationReply : String → Except String String
  technicalReply : String → String → Except String String

/-- `checkDocumentRelevance` (classificationService.js lines 6-31): one model
call, reply trimmed, upper-cased and compared to the exact string YES. -/
def checkDocumentRelevance (w : ModelWorld) (query context : String) : Except String Bool :=
  match w.relevanceReply query context with
  | .error e => .error e
  | .ok r => .ok (decide (jsToUpper (jsTrim r) = "YES"))

/-- `classifyQuery` (classificationService.js lines 33-67): relevance gate first;
on a relevant context the category is TECHNICAL_WITH_DOCS, otherwise the
classification reply is returned trimmed and upper-cased, as is. -/
def classifyQuery (w : ModelWorld) (query context : String) : Except String String :=
  match checkDocumentRelevance w query context with
  | .error e => .error e
  | .ok true => .ok "TECHNICAL_WITH_DOCS"
  | .ok false =>
    match w.classificationReply query with
    | .error e => .error e
    | .ok c => .ok (jsToUpper (jsTrim c))

/-- The static TECHNICAL_NO_DOCS responder (responseService.js lines 57-68). -/
def handleTechnicalNoDocs : Response :=
  .technicalNoDocs
    "Your technical question requires specialized attention as it's not covered in our documentation."
    ⟨"tech@support.com", "1-800-XXX-YYYY", "24/7"⟩
    "High"

/-- The static BILLING responder (responseService.js lines 70-81). -/
def handleBilling : Response :=
  .billing
    "For your security, billing inquiries must be handled through our secure billing channels."
    ⟨"billing@support.com", "1-800-XXX-XXXX", "Monday-Friday, 9 AM - 5 PM EST"⟩
    "Never share payment information through unsecured channels."

/-- The static IRRELEVANT responder (responseService.js lines 83-94). -/
def handleIrrelevant : Response :=
  .irrelevant
    "Your query doesn't match our supported categories or may be outside our scope."
    "Please rephrase your question or choose from our available support categories."
    ["Technical Support", "Billing & Payments", "Product Information"]

/-- The record literal returned on the success path of `handleTechnicalWithDocs`
(responseService.js lines 42-50): fixed envelope, the model's `answer` passed
through, `confidence`/`sourcesUsed` kept only when numeric, `relevantDocs` only
when an array.  It is built only after `answer` was checked truthy, so the
`vnull` default of the member access is unreachable there. -/
def buildTechnicalResponse (parsed : JsValue) : TechDocsPayload :=
  ⟨"HIGH - Documentation Available",
   "Immediate - Using Available Documentation",
   (getField parsed "answer").getD .vnull,
   (match getField parsed "confidence" with
    | some (.vnum q) => q
    | _ => 0.95),
   (match getField parsed "sourcesUsed" with
    | some (.vnum q) => q
    | _ => 1),
   (match getField parsed "relevantDocs" with
    | some (.varr xs) => xs
    | _ => [])⟩

/-- `handleTechnicalWithDocs` (responseService.js lines 4-55): one model call,
two-tier parse, mandatory truthy `answer`; the surrounding try/catch turns every
failure — a thrown model call included — into the static TECHNICAL_NO_DOCS
response. -/
def handleTechnicalWithDocs (w : ModelWorld) (query context : String) : Response :=
  match w.technicalReply query context with
  | .error _ => handleTechnicalNoDocs
  | .ok content =>
    match parseModelContent content with
    | none => handleTechnicalNoDocs
    | some parsed =>
      if truthyOpt (getField parsed "answer") then
        .technicalWithDocs (buildTechnicalResponse parsed)
      else handleTechnicalNoDocs

/-- `handleQuery` (responseService.js lines 96-109): dispatch on the category
token; the default case of the switch falls through to the IRRELEVANT responder. -/
def handleQuery (w : ModelWorld) (query queryType context : String) : Response :=
  if queryType = "TECHNICAL_WITH_DOCS" then handleTechnicalWithDocs w query context
  else if queryType = "TECHNICAL_NO_DOCS" then handleTechnicalNoDocs
  else if queryType = "BILLING" then handleBilling
  else if queryType = "IRRELEVANT" then handleIrrelevant
  else handleIrrelevant

/-- The fixed message of the top-level catch in `askQuestion`. -/
def processingErrorMessage : String := "An error occurred while processing your query."

/-- `askQuestion` (rag.js lines 262-288): retrieval, classification, dispatch,
with the top-level try/catch turning any thrown error into the ERROR shape. -/
def askQuestion (w : ModelWorld) (query : String) : Response :=
  match w.getRelevantDocuments query with
  | .error e => .errorResponse processingErrorMessage e
  | .ok context =>
    match classifyQuery w query context with
    | .error e => .errorResponse processingErrorMessage e
    | .ok queryType => handleQuery w query queryType context

/-- Bound on `confidence` declared by the repository's own zod schema
`technicalDocsResponseSchema` (rag.js line 17): a number with min 0 and max 1. -/
def confidenceInSchemaRange (q : ℚ) : Prop := 0 ≤ q ∧ q ≤ 1

/-! Concrete model replies and worlds used to instantiate the theorems. -/

def goodExample : String := "\x7b\"answer\":\"x\"\x7d"

def jsonFenceExample : String := "```json\n\x7b\"answer\":\"x\"\x7d\n```"

def smartQuoteExample : String := "\x7b\u201Canswer\u201D:\"x\"\x7d"

def confOnlyExample : String := "\x7b\"confidence\":0.8\x7d"

def confFiveExample : String := "\x7b\"answer\":\"x\",\"confidence\":5\x7d"

def emptyAnswerExample : String := "\x7b\"answer\":\"\"\x7d"

/-- A world whose relevance gate answers YES and whose synthesizer model call
returns the given raw text. -/
def mkSynthWorld (content : String) : ModelWorld :=
  ⟨fun _ => .ok "ctx", fun _ _ => .ok "YES", fun _ => .error "unused", fun _ _ => .ok content⟩

/-- A world whose relevance-stage model call returns the given raw text. -/
def mkRelevanceWorld (reply : String) : ModelWorld :=
  ⟨fun _ => .ok "ctx", fun _ _ => .ok reply, fun _ => .error "unused", fun _ _ => .error "unused"⟩

/-- A world whose relevance gate answers NO and whose classification-stage model
call returns the given raw text. -/
def mkClassifierWorld (reply : String) : ModelWorld :=
  ⟨fun _ => .ok "ctx", fun _ _ => .ok "NO", fun _ => .ok reply, fun _ _ => .error "unused"⟩

/-- A world whose vector store is unreachable. -/
def failRetrievalWorld : ModelWorld :=
  ⟨fun _ => .error "db down", fun _ _ => .error "x", fun _ => .error "x", fun _ _ => .error "x"⟩

/-- A world whose synthesizer-stage model call throws. -/
def synthModelFailWorld : ModelWorld :=
  ⟨fun _ => .ok "ctx", fun _ _ => .ok "yes", fun _ => .error "unused", fun _ _ => .error "model down"⟩

/-- A world whose relevance-stage model call throws. -/
def relevanceFailWorld : ModelWorld :=
  ⟨fun _ => .ok "ctx", fun _ _ => .error "llm down", fun _ => .error "x", fun _ _ => .error "x"⟩

/-- A world whose classification-stage model call throws. -/
def classifierFailWorld : ModelWorld :=
  ⟨fun _ => .ok "ctx", fun _ _ => .ok "NO", fun _ => .error "llm down2", fun _ _ => .error "x"⟩

/-- Shared helper: a truthy possibly-absent member is a truthy value after the
`vnull` default. -/
theorem truthy_getD_of_truthyOpt (o : Option JsValue) (h : truthyOpt o = true) :
    truthy (o.getD .vnull) = true := by
  cases o with
  | none => simp [truthyOpt] at h
  | some v => simpa [truthyOpt] using h

/-- Shared helper: the synthesizer only ever returns its success record or the
static TECHNICAL_NO_DOCS record. -/
theorem handleTechnicalWithDocs_type_cases (w : ModelWorld) (q ctx : String) :
    (handleTechnicalWithDocs w q ctx).type = "TECHNICAL_WITH_DOCS" ∨
    (handleTechnicalWithDocs w q ctx).type = "TECHNICAL_NO_DOCS" := by
  cases hr : w.technicalReply q ctx with
  | error e =>
    right
    simp [handleTechnicalWithDocs, hr, handleTechnicalNoDocs, Response.type]
  | ok content =>
    cases hpm : parseModelContent content with
    | none =>
      right
      simp [handleTechnicalWithDocs, hr, hpm, handleTechnicalNoDocs, Response.type]
    | some parsed =>
      cases htr : truthyOpt (getField parsed "answer") with
      | true =>
        left
        simp [handleTechnicalWithDocs, hr, hpm, htr, Response.type]
      | false =>
        right
        simp [handleTechnicalWithDocs, hr, hpm, htr, handleTechnicalNoDocs, Response.type]

/-! Claim theorems. -/

/-- C1: for every query and every behavior of the external services, `askQuestion`
returns a record whose `type` field is one of the five defined tags, and an error
thrown in retrieval or in classification is caught and returned as the uniform
ERROR payload instead of propagating. -/
theorem askQuestion_never_raises (w : ModelWorld) (q : String) :
    ((askQuestion w q).type = "TECHNICAL_WITH_DOCS" ∨
      (askQuestion w q).type = "TECHNICAL_NO_DOCS" ∨
      (askQuestion w q).type = "BILLING" ∨
      (askQuestion w q).type = "IRRELEVANT" ∨
      (askQuestion w q).type = "ERROR") ∧
    (∀ e, w.getRelevantDocuments q = .error e →
      askQuestion w q = .errorResponse processingErrorMessage e) ∧
    (∀ ctx e, w.getRelevantDocuments q = .ok ctx → classifyQuery w q ctx = .error e →
      askQuestion w q = .errorResponse processingErrorMessage e) := by
  refine ⟨?_, ?_, ?_⟩
  · cases h : askQuestion w q <;> simp [Response.type]
  · intro e he
    simp [askQuestion, he]
  · intro ctx e hctx he
    simp [askQuestion, hctx, he]

/-- Witness for C1 at a world whose vector store throws. -/
theorem askQuestion_never_raises_witness :
    askQuestion failRetrievalWorld "q" = .errorResponse processingErrorMessage "db down" :=
  (askQuestion_never_raises failRetrievalWorld "q").2.1 "db down" rfl

/-- C2: the repair parse cleans the raw reply in the source's order — fences,
smart quotes, newlines, space runs, trim — and re-parses: the fenced example
cleans to plain JSON and yields the record with answer x after direct parsing of
the raw text failed, and a reply whose key is wrapped in typographic double
quotes also parses after repair. -/
theorem repair_parse_cleanup_examples :
    jsonParse jsonFenceExample = none ∧
    cleanContent jsonFenceExample = goodExample ∧
    parseModelContent jsonFenceExample = some (.vobj [("answer", .vstr "x")]) ∧
    jsonParse smartQuoteExample = none ∧
    parseModelContent smartQuoteExample = some (.vobj [("answer", .vstr "x")]) :=
  ⟨rfl, rfl, rfl, rfl, rfl⟩

/-- C3: the synthesizer fills defaults field-by-field — from the parsed reply
with only an answer it returns confidence 0.95, sourcesUsed 1, empty
relevantDocs, type TECHNICAL_WITH_DOCS — and for every parsed reply the type,
priority and responseTime fields are the fixed literals. -/
theorem synthesizer_default_filling :
    (buildTechnicalResponse (.vobj [("answer", .vstr "x")])).confidence = 0.95 ∧
    (buildTechnicalResponse (.vobj [("answer", .vstr "x")])).sourcesUsed = 1 ∧
    (buildTechnicalResponse (.vobj [("answer", .vstr "x")])).relevantDocs = [] ∧
    (Response.technicalWithDocs
      (buildTechnicalResponse (.vobj [("answer", .vstr "x")]))).type = "TECHNICAL_WITH_DOCS" ∧
    ∀ v : JsValue,
      (Response.technicalWithDocs (buildTechnicalResponse v)).type = "TECHNICAL_WITH_DOCS" ∧
      (buildTechnicalResponse v).priority = "HIGH - Documentation Available" ∧
      (buildTechnicalResponse v).responseTime = "Immediate - Using Available Documentation" :=
  ⟨rfl, rfl, rfl, rfl, fun _ => ⟨rfl, rfl, rfl⟩⟩

/-- C4: when the parsed reply has no truthy `answer` member, and likewise when
both parse attempts fail, the synthesizer returns the static TECHNICAL_NO_DOCS
record instead of raising to the caller. -/
theorem synthesizer_missing_answer (w : ModelWorld) (q ctx content : String)
    (hok : w.technicalReply q ctx = .ok content) :
    (∀ v, parseModelContent content = some v → truthyOpt (getField v "answer") = false →
      handleTechnicalWithDocs w q ctx = handleTechnicalNoDocs) ∧
    (parseModelContent content = none →
      handleTechnicalWithDocs w q ctx = handleTechnicalNoDocs) := by
  constructor
  · intro v hv hfalse
    simp [handleTechnicalWithDocs, hok, hv, hfalse]
  · intro hnone
    simp [handleTechnicalWithDocs, hok, hnone]

/-- Witness for C4 at the reply with only a confidence field and at an
unparseable reply. -/
theorem synthesizer_missing_answer_witness :
    handleTechnicalWithDocs (mkSynthWorld confOnlyExample) "q" "ctx" = handleTechnicalNoDocs ∧
    handleTechnicalWithDocs (mkSynthWorld "not json") "q" "ctx" = handleTechnicalNoDocs :=
  ⟨(synthesizer_missing_answer (mkSynthWorld confOnlyExample) "q" "ctx" confOnlyExample rfl).1
      (.vobj [("confidence", .vnum ((0 : ℚ) + (8 : ℚ) / 10 ^ (1 : Nat)))]) rfl rfl,
   (synthesizer_missing_answer (mkSynthWorld "not json") "q" "ctx" "not json" rfl).2 rfl⟩

/-- C5: the synthesizer does not constrain `confidence` to the range declared by
the repository's own zod schema: a parsed reply carrying confidence 5 is passed
through verbatim, so the returned TECHNICAL_WITH_DOCS record violates the
declared bound of min 0 and max 1. -/
theorem confidence_escapes_schema_range :
    handleTechnicalWithDocs (mkSynthWorld confFiveExample) "q" "ctx" =
      .technicalWithDocs
        (buildTechnicalResponse (.vobj [("answer", .vstr "x"), ("confidence", .vnum 5)])) ∧
    (buildTechnicalResponse
      (.vobj [("answer", .vstr "x"), ("confidence", .vnum 5)])).confidence = 5 ∧
    ¬ confidenceInSchemaRange
      (buildTechnicalResponse
        (.vobj [("answer", .vstr "x"), ("confidence", .vnum 5)])).confidence := by
  have hparse : parseModelContent confFiveExample
      = some (.vobj [("answer", .vstr "x"), ("confidence", .vnum 5)]) := by
    rw [show parseModelContent confFiveExample
        = some (.vobj [("answer", .vstr "x"), ("confidence", .vnum ((5 : ℚ) + 0))]) from rfl]
    norm_num
  have h0 : handleTechnicalWithDocs (mkSynthWorld confFiveExample) "q" "ctx"
      = match parseModelContent confFiveExample with
        | none => handleTechnicalNoDocs
        | some parsed =>
          if truthyOpt (getField parsed "answer") then
            .technicalWithDocs (buildTechnicalResponse parsed)
          else handleTechnicalNoDocs := rfl
  refine ⟨?_, rfl, ?_⟩
  · rw [h0, hparse]
    rfl
  · rw [show (buildTechnicalResponse
      (.vobj [("answer", .vstr "x"), ("confidence", .vnum 5)])).confidence = (5 : ℚ) from rfl]
    intro h
    exact absurd h.2 (by norm_num)

/-- C6 counterexample: with the classification-stage model replying a
space-padded maybe, `classifyQuery` returns the token MAYBE verbatim, not the
category IRRELEVANT the claim promises. -/
theorem classify_returns_raw_token :
    classifyQuery (mkClassifierWorld " maybe ") "q" "ctx" = .ok "MAYBE" ∧
    (Except.ok "MAYBE" : Except String String) ≠ .ok "IRRELEVANT" :=
  ⟨rfl, by simp⟩

/-- C6 amended: the classification reply is trimmed and upper-cased and returned
verbatim by `classifyQuery`, even when it matches none of the three category
tokens; the defaulting happens at dispatch, where `handleQuery` maps every token
outside its four cases to the IRRELEVANT responder. -/
theorem classify_passthrough_dispatch_default (w : ModelWorld) (q ctx r : String)
    (hrel : checkDocumentRelevance w q ctx = .ok false)
    (hcls : w.classificationReply q = .ok r) :
    classifyQuery w q ctx = .ok (jsToUpper (jsTrim r)) ∧
    (∀ t, t ≠ "TECHNICAL_WITH_DOCS" → t ≠ "TECHNICAL_NO_DOCS" → t ≠ "BILLING" →
      t ≠ "IRRELEVANT" → handleQuery w q t ctx = handleIrrelevant) := by
  constructor
  · simp [classifyQuery, hrel, hcls]
  · intro t h1 h2 h3 h4
    simp [handleQuery, h1, h2, h3, h4]

/-- Witness for the amended C6 at the space-padded maybe reply. -/
theorem classify_passthrough_dispatch_default_witness :
    classifyQuery (mkClassifierWorld " maybe ") "q" "ctx" = .ok "MAYBE" ∧
    handleQuery (mkClassifierWorld " maybe ") "q" "MAYBE" "ctx" = handleIrrelevant :=
  ⟨(classify_passthrough_dispatch_default (mkClassifierWorld " maybe ") "q" "ctx"
      " maybe " rfl rfl).1,
   (classify_passthrough_dispatch_default (mkClassifierWorld " maybe ") "q" "ctx"
      " maybe " rfl rfl).2 "MAYBE" (by decide) (by decide) (by decide) (by decide)⟩

/-- C7 counterexample: when the synthesizer's own model call throws, the
invocation does not surface the ERROR shape — the blanket catch inside
`handleTechnicalWithDocs` recovers to the static TECHNICAL_NO_DOCS response. -/
theorem synth_model_failure_not_error :
    askQuestion synthModelFailWorld "q" = handleTechnicalNoDocs ∧
    (askQuestion synthModelFailWorld "q").type = "TECHNICAL_NO_DOCS" ∧
    (askQuestion synthModelFailWorld "q").type ≠ "ERROR" :=
  ⟨rfl, rfl, by decide⟩

/-- C7 amended: a model-call failure inside the synthesizer is swallowed by its
blanket catch and recovered to the static TECHNICAL_NO_DOCS response exactly as
malformed output is, while model-call failures in the relevance and
classification stages are fatal and surface as the ERROR payload. -/
theorem model_failure_paths (w : ModelWorld) (q : String) :
    (∀ ctx e, w.technicalReply q ctx = .error e →
      handleTechnicalWithDocs w q ctx = handleTechnicalNoDocs) ∧
    (∀ ctx e, w.getRelevantDocuments q = .ok ctx → w.relevanceReply q ctx = .error e →
      askQuestion w q = .errorResponse processingErrorMessage e) ∧
    (∀ ctx e, w.getRelevantDocuments q = .ok ctx → checkDocumentRelevance w q ctx = .ok false →
      w.classificationReply q = .error e →
      askQuestion w q = .errorResponse processingErrorMessage e) := by
  refine ⟨?_, ?_, ?_⟩
  · intro ctx e he
    simp [handleTechnicalWithDocs, he]
  · intro ctx e hctx he
    simp [askQuestion, hctx, classifyQuery, checkDocumentRelevance, he]
  · intro ctx e hctx hrel he
    simp [askQuestion, hctx, classifyQuery, hrel, he]

/-- Witness for the amended C7 at a throwing synthesizer call, a throwing
relevance call and a throwing classification call. -/
theorem model_failure_paths_witness :
    handleTechnicalWithDocs synthModelFailWorld "q" "ctx" = handleTechnicalNoDocs ∧
    askQuestion relevanceFailWorld "q" = .errorResponse processingErrorMessage "llm down" ∧
    askQuestion classifierFailWorld "q" = .errorResponse processingErrorMessage "llm down2" :=
  ⟨(model_failure_paths synthModelFailWorld "q").1 "ctx" "model down" rfl,
   (model_failure_paths relevanceFailWorld "q").2.1 "ctx" "llm down" rfl rfl,
   (model_failure_paths classifierFailWorld "q").2.2 "ctx" "llm down2" rfl rfl rfl⟩

/-- C8: whenever retrieval succeeds and the relevance gate answers true, the
final response comes from the synthesizer path and its type is
TECHNICAL_WITH_DOCS or, on synthesis failure, TECHNICAL_NO_DOCS — never BILLING
or IRRELEVANT. -/
theorem relevant_query_response_type (w : ModelWorld) (q ctx : String)
    (hret : w.getRelevantDocuments q = .ok ctx)
    (hrel : checkDocumentRelevance w q ctx = .ok true) :
    askQuestion w q = handleTechnicalWithDocs w q ctx ∧
    ((askQuestion w q).type = "TECHNICAL_WITH_DOCS" ∨
      (askQuestion w q).type = "TECHNICAL_NO_DOCS") ∧
    (askQuestion w q).type ≠ "BILLING" ∧ (askQuestion w q).type ≠ "IRRELEVANT" := by
  have heq : askQuestion w q = handleTechnicalWithDocs w q ctx := by
    simp [askQuestion, hret, classifyQuery, hrel, handleQuery]
  refine ⟨heq, ?_, ?_, ?_⟩
  · rw [heq]
    exact handleTechnicalWithDocs_type_cases w q ctx
  · rw [heq]
    rcases handleTechnicalWithDocs_type_cases w q ctx with h | h <;> simp [h]
  · rw [heq]
    rcases handleTechnicalWithDocs_type_cases w q ctx with h | h <;> simp [h]

/-- Witness for C8 at a world with a well-formed synthesizer reply. -/
theorem relevant_query_response_type_witness :
    (askQuestion (mkSynthWorld goodExample) "q").type = "TECHNICAL_WITH_DOCS" ∨
    (askQuestion (mkSynthWorld goodExample) "q").type = "TECHNICAL_NO_DOCS" :=
  (relevant_query_response_type (mkSynthWorld goodExample) "q" "ctx" rfl rfl).2.1

/-- C9: the relevance gate returns true exactly when the model's raw reply,
trimmed of whitespace and upper-cased, is the exact string YES; every other
reply yields false. -/
theorem relevance_gate_exact (w : ModelWorld) (q ctx r : String)
    (h : w.relevanceReply q ctx = .ok r) :
    (checkDocumentRelevance w q ctx = .ok true ↔ jsToUpper (jsTrim r) = "YES") ∧
    (jsToUpper (jsTrim r) ≠ "YES" → checkDocumentRelevance w q ctx = .ok false) := by
  refine ⟨?_, ?_⟩
  · simp [checkDocumentRelevance, h]
  · intro hne
    simp [checkDocumentRelevance, h, hne]

/-- Witness for C9 at a padded lower-case yes, a period-suffixed YES, and a
partial-match sentence. -/
theorem relevance_gate_exact_witness :
    checkDocumentRelevance (mkRelevanceWorld " yes \n") "q" "ctx" = .ok true ∧
    checkDocumentRelevance (mkRelevanceWorld "YES.") "q" "ctx" = .ok false ∧
    checkDocumentRelevance (mkRelevanceWorld "yes, it is") "q" "ctx" = .ok false :=
  ⟨(relevance_gate_exact (mkRelevanceWorld " yes \n") "q" "ctx" " yes \n" rfl).1.mpr rfl,
   (relevance_gate_exact (mkRelevanceWorld "YES.") "q" "ctx" "YES." rfl).2 (by decide),
   (relevance_gate_exact (mkRelevanceWorld "yes, it is") "q" "ctx" "yes, it is" rfl).2
     (by decide)⟩

/-- C10: a falsy `answer` — the empty string, 0, null, or false — is rejected
exactly like a missing one, falling back to the static TECHNICAL_NO_DOCS record,
so every TECHNICAL_WITH_DOCS record the synthesizer returns carries a truthy
answer. -/
theorem falsy_answer_fallback (w : ModelWorld) (q ctx : String) :
    truthy (.vstr "") = false ∧ truthy (.vnum 0) = false ∧ truthy .vnull = false ∧
    truthy (.vbool false) = false ∧
    (∀ content v a, w.technicalReply q ctx = .ok content →
      parseModelContent content = some v → getField v "answer" = some a →
      truthy a = false → handleTechnicalWithDocs w q ctx = handleTechnicalNoDocs) ∧
    (∀ p, handleTechnicalWithDocs w q ctx = .technicalWithDocs p →
      truthy p.answer = true) := by
  refine ⟨rfl, by simp [truthy], rfl, rfl, ?_, ?_⟩
  · intro content v a hok hv ha hfalse
    simp [handleTechnicalWithDocs, hok, hv, truthyOpt, ha, hfalse]
  · intro p hp
    cases hr : w.technicalReply q ctx with
    | error e =>
      rw [show handleTechnicalWithDocs w q ctx = handleTechnicalNoDocs from by
        simp [handleTechnicalWithDocs, hr]] at hp
      simp [handleTechnicalNoDocs] at hp
    | ok content =>
      have hE : handleTechnicalWithDocs w q ctx
          = match parseModelContent content with
            | none => handleTechnicalNoDocs
            | some parsed =>
              if truthyOpt (getField parsed "answer") = true then
                Response.technicalWithDocs (buildTechnicalResponse parsed)
              else handleTechnicalNoDocs := by
        simp [handleTechnicalWithDocs, hr]
      rw [hE] at hp
      cases hpm : parseModelContent content with
      | none =>
        rw [hpm] at hp
        simp [handleTechnicalNoDocs] at hp
      | some parsed =>
        rw [hpm] at hp
        have hp2 : (if truthyOpt (getField parsed "answer") = true then
              Response.technicalWithDocs (buildTechnicalResponse parsed)
            else handleTechnicalNoDocs) = Response.technicalWithDocs p := hp
        cases htr : truthyOpt (getField parsed "answer") with
        | false =>
          rw [htr] at hp2
          simp [handleTechnicalNoDocs] at hp2
        | true =>
          rw [htr] at hp2
          simp only [if_pos] at hp2
          injection hp2 with h
          subst h
          exact truthy_getD_of_truthyOpt _ htr

/-- Witness for C10 at a reply whose answer is the empty string. -/
theorem falsy_answer_fallback_witness :
    handleTechnicalWithDocs (mkSynthWorld emptyAnswerExample) "q" "ctx" = handleTechnicalNoDocs :=
  (falsy_answer_fallback (mkSynthWorld emptyAnswerExample) "q" "ctx").2.2.2.2.1
    emptyAnswerExample (.vobj [("answer", .vstr "")]) (.vstr "") rfl rfl rfl rfl

end AiChat
